import Mathlib

/-!
Verification of the COMBSEC key generator/validator
(`ACTNEWWORLDODOR/emoji_combsec_generator.py`).

Python strings are modelled as `List Char` (a Python `str` is a sequence of
Unicode code points, and `len`, `split`, indexing and equality all operate on
code points, exactly as on `List Char`).  Python `bytes` values are modelled as
`List Nat` with every element below 256.  Python's unbounded `int` is modelled
as `Int` (or `Nat` where the source value is known to be non-negative).
Fallible library primitives (`int(...)`, `datetime.fromtimestamp`) are modelled
in an `Except` monad carrying the Python exception class and message, so that
the source's `try`/`except` structure can be embedded faithfully.
-/

/-- Lowercase hexadecimal digits, in value order; `hashlib`'s `hexdigest`
produces exactly these characters. -/
def lowHexChars : List Char := "0123456789abcdef".data

/-- Uppercase hexadecimal digits, in value order. -/
def upHexChars : List Char := "0123456789ABCDEF".data

/-- Hex character for the low nibble of `n`. -/
def nibbleChar (n : Nat) : Char := lowHexChars.getD (n % 16) '0'

/-- Truncation to a 32-bit word, as used throughout SHA-256. -/
def w32 (n : Nat) : Nat := n % 4294967296

/-- 32-bit right rotation. -/
def rotr (n x : Nat) : Nat := w32 ((x >>> n) ||| (x <<< (32 - n)))

/-- SHA-256 big sigma-0. -/
def bSigma0 (x : Nat) : Nat := rotr 2 x ^^^ rotr 13 x ^^^ rotr 22 x

/-- SHA-256 big sigma-1. -/
def bSigma1 (x : Nat) : Nat := rotr 6 x ^^^ rotr 11 x ^^^ rotr 25 x

/-- SHA-256 small sigma-0. -/
def sSigma0 (x : Nat) : Nat := rotr 7 x ^^^ rotr 18 x ^^^ (x >>> 3)

/-- SHA-256 small sigma-1. -/
def sSigma1 (x : Nat) : Nat := rotr 17 x ^^^ rotr 19 x ^^^ (x >>> 10)

/-- The eight working variables of the SHA-256 compression function. -/
structure H8 where
  h0 : Nat
  h1 : Nat
  h2 : Nat
  h3 : Nat
  h4 : Nat
  h5 : Nat
  h6 : Nat
  h7 : Nat

/-- SHA-256 round constants (FIPS 180-4), written in decimal. -/
def kConst : List Nat :=
  [1116352408, 1899447441, 3049323471, 3921009573, 961987163, 1508970993,
   2453635748, 2870763221, 3624381080, 310598401, 607225278, 1426881987,
   1925078388, 2162078206, 2614888103, 3248222580, 3835390401, 4022224774,
   264347078, 604807628, 770255983, 1249150122, 1555081692, 1996064986,
   2554220882, 2821834349, 2952996808, 3210313671, 3336571891, 3584528711,
   113926993, 338241895, 666307205, 773529912, 1294757372, 1396182291,
   1695183700, 1986661051, 2177026350, 2456956037, 2730485921, 2820302411,
   3259730800, 3345764771, 3516065817, 3600352804, 4094571909, 275423344,
   430227734, 506948616, 659060556, 883997877, 958139571, 1322822218,
   1537002063, 1747873779, 1955562222, 2024104815, 2227730452, 2361852424,
   2428436474, 2756734187, 3204031479, 3329325298]

/-- SHA-256 initial hash value (FIPS 180-4), written in decimal. -/
def initH : H8 :=
  ⟨1779033703, 3144134277, 1013904242, 2773480762,
   1359893119, 2600822924, 528734635, 1541459225⟩

/-- One round of the SHA-256 compression function. -/
def shaStep (s : H8) (wi ki : Nat) : H8 :=
  let ch := (s.h4 &&& s.h5) ^^^ ((0xffffffff ^^^ s.h4) &&& s.h6)
  let temp1 := w32 (s.h7 + bSigma1 s.h4 + ch + ki + wi)
  let maj := (s.h0 &&& s.h1) ^^^ (s.h0 &&& s.h2) ^^^ (s.h1 &&& s.h2)
  let temp2 := w32 (bSigma0 s.h0 + maj)
  ⟨w32 (temp1 + temp2), s.h0, s.h1, s.h2, w32 (s.h3 + temp1), s.h4, s.h5, s.h6⟩

/-- Big-endian 32-bit word taken from four bytes of a block. -/
def wordAt (blk : List Nat) (i : Nat) : Nat :=
  blk.getD (4 * i) 0 * 16777216 + blk.getD (4 * i + 1) 0 * 65536 +
    blk.getD (4 * i + 2) 0 * 256 + blk.getD (4 * i + 3) 0

/-- The 64-entry message schedule of one 64-byte block. -/
def msgSchedule (blk : List Nat) : List Nat :=
  let w16 := (List.range 16).map (wordAt blk)
  (List.range 48).foldl
    (fun w i =>
      w ++ [w32 (sSigma1 (w.getD (i + 14) 0) + w.getD (i + 9) 0 +
                 sSigma0 (w.getD (i + 1) 0) + w.getD i 0)])
    w16

/-- SHA-256 compression of one 64-byte block into the running hash value. -/
def compressBlock (h : H8) (blk : List Nat) : H8 :=
  let ws := msgSchedule blk
  let f := (List.range 64).foldl (fun s i => shaStep s (ws.getD i 0) (kConst.getD i 0)) h
  ⟨w32 (h.h0 + f.h0), w32 (h.h1 + f.h1), w32 (h.h2 + f.h2), w32 (h.h3 + f.h3),
   w32 (h.h4 + f.h4), w32 (h.h5 + f.h5), w32 (h.h6 + f.h6), w32 (h.h7 + f.h7)⟩

/-- Big-endian 8-byte encoding of `n` (the SHA-256 length field). -/
def bytesBE8 (n : Nat) : List Nat :=
  [n >>> 56 % 256, n >>> 48 % 256, n >>> 40 % 256, n >>> 32 % 256,
   n >>> 24 % 256, n >>> 16 % 256, n >>> 8 % 256, n % 256]

/-- SHA-256 of a byte string, as the list of the eight 32-bit words of the
digest. -/
def sha256Words (msg : List Nat) : List Nat :=
  let l := msg.length
  let padded := msg ++ 0x80 :: List.replicate ((119 - l % 64) % 64) 0 ++ bytesBE8 (8 * l)
  let blocks := (List.range (padded.length / 64)).map fun i => (padded.drop (64 * i)).take 64
  let f := blocks.foldl compressBlock initH
  [f.h0, f.h1, f.h2, f.h3, f.h4, f.h5, f.h6, f.h7]

/-- The eight hex characters of one 32-bit word, most significant nibble
first. -/
def wordHexChars (w : Nat) : List Char :=
  [nibbleChar (w >>> 28), nibbleChar (w >>> 24), nibbleChar (w >>> 20),
   nibbleChar (w >>> 16), nibbleChar (w >>> 12), nibbleChar (w >>> 8),
   nibbleChar (w >>> 4), nibbleChar w]

/-- SHA-256 of a byte string as its 64-character lowercase hex digest; models
`hashlib.sha256(msg).hexdigest()`. -/
def sha256Hex (msg : List Nat) : List Char :=
  ((sha256Words msg).map wordHexChars).flatten

/-- UTF-8 encoding of one code point. -/
def utf8Bytes (c : Char) : List Nat :=
  let n := c.toNat
  if n < 128 then [n]
  else if n < 2048 then [192 + n / 64, 128 + n % 64]
  else if n < 65536 then [224 + n / 4096, 128 + n / 64 % 64, 128 + n % 64]
  else [240 + n / 262144, 128 + n / 4096 % 64, 128 + n / 64 % 64, 128 + n % 64]

/-- UTF-8 encoding of a string; models Python's `str.encode` with the default
(`utf-8`) codec. -/
def utf8 (s : List Char) : List Nat := (s.map utf8Bytes).flatten

/-- Decimal digits in value order. -/
def decDigitChars : List Char := "0123456789".data

/-- Character for the decimal digit `d % 10`. -/
def digitChar (d : Nat) : Char := decDigitChars.getD (d % 10) '0'

/-- Fuelled decimal rendering (structural recursion so that it reduces inside
the kernel); produces the digits of `n` once `n < fuel`. -/
def natToDecAux : Nat → Nat → List Char
  | 0, _ => []
  | fuel + 1, n =>
    if n < 10 then [digitChar n]
    else natToDecAux fuel (n / 10) ++ [digitChar (n % 10)]

/-- Decimal rendering of a natural number; models Python `str` on a
non-negative `int`. -/
def natToDec (n : Nat) : List Char := natToDecAux (n + 1) n

/-- Decimal rendering of an integer; models Python `str` on an `int` (a `-`
sign followed by the digits when negative). -/
def intToDec (t : Int) : List Char :=
  if t < 0 then '-' :: natToDec (-t).toNat else natToDec t.toNat

/-- ASCII uppercasing of one character; models Python `str.upper` on the ASCII
range (the only characters the source ever uppercases are hex digits). -/
def pyUpperChar (c : Char) : Char :=
  if 'a' ≤ c ∧ c ≤ 'z' then Char.ofNat (c.toNat - 32) else c

/-- Models Python `str.upper` on ASCII strings. -/
def pyUpper (s : List Char) : List Char := s.map pyUpperChar

/-- A string that does not contain the dash delimiter. -/
def dashFree (s : List Char) : Prop := ∀ c ∈ s, c ≠ '-'

instance (s : List Char) : Decidable (dashFree s) := by
  unfold dashFree; infer_instance

/-- Models Python `str.split('-')`: cut at every dash, keeping empty pieces,
with `[""]` for the empty string. -/
def splitDash : List Char → List (List Char)
  | [] => [[]]
  | c :: rest =>
    if c = '-' then [] :: splitDash rest
    else
      match splitDash rest with
      | [] => [[c]]
      | g :: gs => (c :: g) :: gs

/-- Value of one ASCII decimal digit. -/
def digitVal (c : Char) : Option Nat :=
  if '0' ≤ c ∧ c ≤ '9' then some (c.toNat - 48) else none

/-- Digit accumulation for `int(...)`, allowing single underscores strictly
between digits as CPython does. -/
def pyDigitsAux (acc : Nat) : List Char → Option Nat
  | [] => some acc
  | c :: rest =>
    if c = '_' then
      match rest with
      | [] => none
      | c2 :: rest2 =>
        match digitVal c2 with
        | some d => pyDigitsAux (10 * acc + d) rest2
        | none => none
    else
      match digitVal c with
      | some d => pyDigitsAux (10 * acc + d) rest
      | none => none

/-- Parses a non-empty digit group (first character must be a digit). -/
def pyDigits : List Char → Option Nat
  | [] => none
  | c :: rest =>
    match digitVal c with
    | some d => pyDigitsAux d rest
    | none => none

/-- ASCII whitespace stripped by Python `str.strip` (the Unicode whitespace
characters CPython additionally strips play no role in this repository). -/
def pySpace (c : Char) : Bool :=
  c = ' ' || c = Char.ofNat 9 || c = Char.ofNat 10 || c = Char.ofNat 13 ||
    c = Char.ofNat 11 || c = Char.ofNat 12

/-- Strip leading and trailing whitespace, as `int(...)` does before parsing. -/
def pyStrip (s : List Char) : List Char :=
  ((s.dropWhile pySpace).reverse.dropWhile pySpace).reverse

/-- Models CPython `int(s)` for base 10 on ASCII input: optional surrounding
whitespace, an optional sign, then digits with optional single underscores
between them.  (CPython additionally accepts non-ASCII decimal digits; those
are not modelled and do not occur in this repository.) -/
def pyIntParse (s : List Char) : Option Int :=
  match pyStrip s with
  | [] => none
  | c :: rest =>
    if c = '+' then (pyDigits rest).map fun n => (n : Int)
    else if c = '-' then (pyDigits rest).map fun n => -(n : Int)
    else (pyDigits (c :: rest)).map fun n => (n : Int)

/-- Kind of a raised Python exception, as far as the source's `except` clauses
distinguish them. -/
inductive PyExnKind where
  | valueError
  | overflowError
  | osError
deriving DecidableEq

/-- A raised Python exception: its class and its message (`str(e)`). -/
structure PyExn where
  kind : PyExnKind
  msg : List Char
deriving DecidableEq

/-- Civil date from a day count relative to 1970-01-01 (Gregorian, the
standard days-to-civil algorithm); returns (year, month, day). -/
def civilFromDays (z0 : Int) : Int × Nat × Nat :=
  let z := z0 + 719468
  let era := Int.fdiv z 146097
  let doe := (z - era * 146097).toNat
  let yoe := (doe - doe / 1460 + doe / 36524 - doe / 146096) / 365
  let doy := doe - (365 * yoe + yoe / 4 - yoe / 100)
  let mp := (5 * doy + 2) / 153
  let d := doy - (153 * mp + 2) / 5 + 1
  let m := if mp < 10 then mp + 3 else mp - 9
  ((yoe : Int) + era * 400 + (if m ≤ 2 then 1 else 0), m, d)

/-- Date and time-of-day fields of a Unix timestamp interpreted in UTC. -/
def dtFromSecs (t : Int) : Int × Nat × Nat × Nat × Nat × Nat :=
  let days := Int.fdiv t 86400
  let sod := (t - days * 86400).toNat
  let (y, m, d) := civilFromDays days
  (y, m, d, sod / 3600, sod / 60 % 60, sod % 60)

/-- Zero-padding to a given width. -/
def padZeros (w : Nat) (s : List Char) : List Char :=
  List.replicate (w - s.length) '0' ++ s

/-- Models `datetime.isoformat()` for a whole-second datetime:
`YYYY-MM-DDTHH:MM:SS`. -/
def isoFmt (y m d hh mi ss : Nat) : List Char :=
  padZeros 4 (natToDec y) ++ '-' :: padZeros 2 (natToDec m) ++ '-' ::
    padZeros 2 (natToDec d) ++ 'T' :: padZeros 2 (natToDec hh) ++ ':' ::
    padZeros 2 (natToDec mi) ++ ':' :: padZeros 2 (natToDec ss)

/-- Models `datetime.fromtimestamp(t).isoformat()` on CPython, 64-bit Linux
(glibc), with the process timezone set to UTC.  Empirically on that platform:
timestamps beyond the signed 64-bit `time_t` raise `OverflowError`; timestamps
whose year does not fit glibc's `int tm_year` raise `OSError` (errno 75); the
conversion succeeds exactly for `-62135510400 ≤ t ≤ 253402300799` (from
0001-01-02T00:00:00 through 9999-12-31T23:59:59 — CPython rejects the first
representable day); everything else raises `ValueError` whose message quotes
the out-of-range year (near the boundaries CPython's quoted year can differ
from the civil year quoted here, which is irrelevant because the source only
dispatches on the exception class). -/
def fromtimestampE (t : Int) : Except PyExn (List Char) :=
  if t < -9223372036854775808 ∨ 9223372036854775807 < t then
    Except.error ⟨PyExnKind.overflowError, "timestamp out of range for platform time_t".data⟩
  else if 67768036191676799 < t ∨ t < -67768040609740800 then
    Except.error ⟨PyExnKind.osError, "[Errno 75] Value too large for defined data type".data⟩
  else
    match dtFromSecs t with
    | (y, m, d, hh, mi, ss) =>
      if 1 ≤ y ∧ y ≤ 9999 ∧ -62135510400 ≤ t then Except.ok (isoFmt y.toNat m d hh mi ss)
      else Except.error ⟨PyExnKind.valueError, "year ".data ++ intToDec y ++ " is out of range".data⟩

/-- The source's `GLOBE_EMOJI` class constant, character for character as the
file's bytes decode: the four code points U+F8FF, U+00FC, U+00E5, U+00EA (a
MacRoman mojibake of the UTF-8 bytes of U+1F310).  Note this disagrees with
the class's own `UNICODE_CODEPOINT`/`UTF8_BYTES` constants, which do describe
U+1F310; see the marker theorems below. -/
def GLOBE_EMOJI : List Char :=
  [Char.ofNat 0xF8FF, Char.ofNat 0xFC, Char.ofNat 0xE5, Char.ofNat 0xEA]

/-- The single code point U+1F310 (the actual globe emoji). -/
def globeU1F310 : List Char := [Char.ofNat 0x1F310]

/-- The source's `UNICODE_CODEPOINT` class constant. -/
def UNICODE_CODEPOINT : List Char := "U+1F310".data

/-- The source's `HEX_VALUE` class constant. -/
def HEX_VALUE : Nat := 0x1F310

/-- The source's `UTF8_BYTES` class constant (`b'\xf0\x9f\x8c\x90'`). -/
def UTF8_BYTES : List Nat := [0xf0, 0x9f, 0x8c, 0x90]

/-- State of an `EmojiCombsecGenerator` instance: just the `firm_id` attribute
(the `base_seed` attribute is a pure function of it, embedded below). -/
structure EmojiCombsecGenerator where
  firm_id : List Char

/-- The `base_seed` attribute computed by `_generate_base_seed`:
`sha256(UTF8_BYTES + firm_id.encode('utf-8')).hexdigest()`. -/
def base_seed (g : EmojiCombsecGenerator) : List Char :=
  sha256Hex (UTF8_BYTES ++ utf8 g.firm_id)

/-- The combinatoric hash of `generate_combsec_key`: the first 16 hex
characters of the SHA-256 hex digest of the UTF-8 encoding of
`base_seed + str(timestamp) + firm_id + str(HEX_VALUE) + entropy`, uppercased
by the f-string's `.upper()`. -/
def combsecDigest (g : EmojiCombsecGenerator) (timestamp : Int) (entropy : List Char) :
    List Char :=
  pyUpper ((sha256Hex (utf8 (base_seed g ++ intToDec timestamp ++ g.firm_id ++
    natToDec HEX_VALUE ++ entropy))).take 16)

/-- `generate_combsec_key`.  The `timestamp` parameter stands for the supplied
timestamp or, when the caller omitted it, for `int(time.time())` as read at the
call; likewise `entropy` stands for `additional_entropy or secrets.token_hex(8)`.
The result is the f-string
`f"{GLOBE_EMOJI}-{combsec_hash.upper()}-{timestamp}-{firm_id}"`. -/
def generate_combsec_key (g : EmojiCombsecGenerator) (timestamp : Int)
    (entropy : List Char) : List Char :=
  GLOBE_EMOJI ++ '-' :: combsecDigest g timestamp entropy ++ '-' ::
    intToDec timestamp ++ '-' :: g.firm_id

/-- Result dictionary of `validate_combsec_key`: either the success dictionary
(`valid: True` plus the parsed components) or a failure dictionary
(`valid: False` plus an error message). -/
inductive VResult where
  | ok (emoji hex_key : List Char) (timestamp : Int) (datetimeIso firm_id codepoint : List Char)
  | err (msg : List Char)
deriving DecidableEq

/-- The `valid` entry of the result dictionary. -/
def VResult.valid : VResult → Bool
  | VResult.ok _ _ _ _ _ _ => true
  | VResult.err _ => false

/-- The `error` entry of the result dictionary (absent on success). -/
def VResult.error : VResult → Option (List Char)
  | VResult.ok _ _ _ _ _ _ => none
  | VResult.err m => some m

/-- The `timestamp` entry of the success dictionary. -/
def VResult.timestamp : VResult → Int
  | VResult.ok _ _ t _ _ _ => t
  | VResult.err _ => 0

/-- The `firm_id` entry of the success dictionary. -/
def VResult.firm_id : VResult → List Char
  | VResult.ok _ _ _ _ f _ => f
  | VResult.err _ => []

/-- The `hex_key` entry of the success dictionary. -/
def VResult.hex_key : VResult → List Char
  | VResult.ok _ k _ _ _ _ => k
  | VResult.err _ => []

/-- Error message for a wrong field count. -/
def msgInvalidFormat : List Char := "Invalid key format".data

/-- Error message for a wrong leading emoji component. -/
def msgInvalidEmoji : List Char := "Invalid emoji component".data

/-- Error message for a digest field of the wrong length. -/
def msgInvalidHexLen : List Char := "Invalid hex key length".data

/-- Error message for an unparseable or unconvertible timestamp field. -/
def msgInvalidTimestamp : List Char := "Invalid timestamp".data

/-- Prefix of the catch-all parsing-error message. -/
def msgParsingError : List Char := "Parsing error: ".data

/-- Message of the `ValueError` raised by `int(...)` on unparseable input
(CPython quotes the repr of the input; only the class matters to the source). -/
def msgIntLiteral (s : List Char) : List Char :=
  "invalid literal for int() with base 10: ".data ++ s

/-- Models `int(timestamp_str)` in the `Except` monad. -/
def pyIntE (s : List Char) : Except PyExn Int :=
  match pyIntParse s with
  | some t => Except.ok t
  | none => Except.error ⟨PyExnKind.valueError, msgIntLiteral s⟩

/-- Body of `validate_combsec_key` inside its outer `try`: split, the three
structural checks, then `int(...)` and `datetime.fromtimestamp(...)` under the
inner `try`/`except ValueError`.  A `ValueError` from either call yields the
`Invalid timestamp` dictionary; any other exception escapes to the caller
(there to be caught by the outer `except Exception`). -/
def validate_inner (g : EmojiCombsecGenerator) (key : List Char) :
    Except PyExn VResult :=
  match splitDash key with
  | [emoji_part, hex_key, timestamp_str, firm_id] =>
    if emoji_part ≠ GLOBE_EMOJI then Except.ok (VResult.err msgInvalidEmoji)
    else if hex_key.length ≠ 16 then Except.ok (VResult.err msgInvalidHexLen)
    else
      match (match pyIntE timestamp_str with
             | Except.error e => Except.error e
             | Except.ok t =>
               match fromtimestampE t with
               | Except.error e => Except.error e
               | Except.ok iso => Except.ok (t, iso)) with
      | Except.error e =>
        if e.kind = PyExnKind.valueError then Except.ok (VResult.err msgInvalidTimestamp)
        else Except.error e
      | Except.ok (t, iso) =>
        Except.ok (VResult.ok emoji_part hex_key t iso firm_id UNICODE_CODEPOINT)
  | _ => Except.ok (VResult.err msgInvalidFormat)

/-- `validate_combsec_key`: the body above wrapped in the outer
`try`/`except Exception`, which turns any escaped exception into the
`Parsing error: ...` dictionary. -/
def validate_combsec_key (g : EmojiCombsecGenerator) (key : List Char) : VResult :=
  match validate_inner g key with
  | Except.ok r => r
  | Except.error e => VResult.err (msgParsingError ++ e.msg)

/-- The per-item entropy string `f"batch_{i}_{secrets.token_hex(4)}"` of
`generate_key_batch`, with `tok i` standing for the random `token_hex(4)`
drawn for item `i`. -/
def batchEntropy (tok : Nat → List Char) (i : Nat) : List Char :=
  "batch_".data ++ natToDec i ++ "_".data ++ tok i

/-- `generate_key_batch`: `count` keys at timestamps `base_time + i`, with the
per-item entropy above.  `base_time` stands for the `int(time.time())` read at
entry, `tok` for the stream of random hex strings. -/
def generate_key_batch (g : EmojiCombsecGenerator) (base_time : Int)
    (tok : Nat → List Char) (count : Nat) : List (List Char) :=
  (List.range count).map fun (i : Nat) =>
    generate_combsec_key g (base_time + (i : Int)) (batchEntropy tok i)

/-- Whether an `Except` computation succeeded. -/
def exceptIsOk : Except PyExn (List Char) → Bool
  | Except.ok _ => true
  | Except.error _ => false

/-- A generator instance with firm id `ACMEFIRM` (the spec's running
example). -/
def gACME : EmojiCombsecGenerator := ⟨"ACMEFIRM".data⟩

/-- A generator instance with firm id `FIRM` (used by the spec's validation
scenarios). -/
def gFIRM : EmojiCombsecGenerator := ⟨"FIRM".data⟩

/-- A fixed concrete entropy string for witnesses. -/
def entropyX : List Char := "myentropy".data

/-- The isoformat of Unix time 1700000000 (UTC). -/
def iso1700 : List Char := "2023-11-14T22:13:20".data

/-- A well-formed token except that its digest field is 5 characters long. -/
def keyShort : List Char := GLOBE_EMOJI ++ "-SHORT-1700000000-FIRM".data

/-- A well-formed token except that its timestamp field is not numeric. -/
def keyNoNum : List Char := GLOBE_EMOJI ++ "-AAAAAAAAAAAAAAAA-notanumber-FIRM".data

/-- A structurally well-formed token whose digest field is not hexadecimal. -/
def keyNonHex : List Char := GLOBE_EMOJI ++ "-GGGGGGGGGGGGGGGG-1700000000-FIRM".data

/-- The non-hex digest field of `keyNonHex`. -/
def digestG : List Char := "GGGGGGGGGGGGGGGG".data

/-- A structurally well-formed token bearing the source's (mojibake) marker
constant. -/
def keyMojibake : List Char := GLOBE_EMOJI ++ "-AAAAAAAAAAAAAAAA-1700000000-FIRM".data

/-- A token whose timestamp field exceeds 64-bit `time_t`, driving
`datetime.fromtimestamp` into the catch-all handler. -/
def keyHugeTs : List Char := GLOBE_EMOJI ++ "-AAAAAAAAAAAAAAAA-100000000000000000000-F".data

/-- The exception `datetime.fromtimestamp` raises on `keyHugeTs`'s
timestamp. -/
def exnOverflow : PyExn :=
  ⟨PyExnKind.overflowError, "timestamp out of range for platform time_t".data⟩

/-- Membership of every nibble character in the lowercase hex alphabet. -/
theorem nibbleChar_mem (n : Nat) : nibbleChar n ∈ lowHexChars := by
  unfold nibbleChar
  have h : n % 16 < 16 := Nat.mod_lt _ (by decide)
  generalize n % 16 = k at h
  interval_cases k <;> decide

/-- Every character of a SHA-256 hex digest is a lowercase hex digit. -/
theorem sha256Hex_mem {m : List Nat} {c : Char} (h : c ∈ sha256Hex m) :
    c ∈ lowHexChars := by
  unfold sha256Hex at h
  rcases List.mem_flatten.mp h with ⟨l, hl, hcl⟩
  rcases List.mem_map.mp hl with ⟨w, _, rfl⟩
  unfold wordHexChars at hcl
  simp only [List.mem_cons, List.not_mem_nil, or_false] at hcl
  rcases hcl with h | h | h | h | h | h | h | h <;> exact h ▸ nibbleChar_mem _

/-- A SHA-256 hex digest has exactly 64 characters. -/
theorem sha256Hex_length (m : List Nat) : (sha256Hex m).length = 64 := by
  have h8 : ∀ l : List Nat, l.length = 8 →
      ((l.map wordHexChars).flatten).length = 64 := by
    intro l hl
    match l, hl with
    | [a, b, c, d, e, f, g, h], _ => rfl
  exact h8 _ rfl

/-- Uppercasing sends lowercase hex digits into the uppercase hex alphabet. -/
theorem pyUpperChar_hex : ∀ c ∈ lowHexChars, pyUpperChar c ∈ upHexChars := by decide

/-- No uppercase hex digit is the dash delimiter. -/
theorem upHex_ne_dash : ∀ c ∈ upHexChars, c ≠ '-' := by decide

/-- The combinatoric digest always has exactly 16 characters. -/
theorem combsecDigest_length (g : EmojiCombsecGenerator) (t : Int) (e : List Char) :
    (combsecDigest g t e).length = 16 := by
  unfold combsecDigest pyUpper
  rw [List.length_map, List.length_take, sha256Hex_length]
  rfl

/-- Every character of the combinatoric digest is an uppercase hex digit. -/
theorem combsecDigest_mem (g : EmojiCombsecGenerator) (t : Int) (e : List Char) :
    ∀ c ∈ combsecDigest g t e, c ∈ upHexChars := by
  intro c hc
  unfold combsecDigest pyUpper at hc
  rcases List.mem_map.mp hc with ⟨x, hx, rfl⟩
  exact pyUpperChar_hex x (sha256Hex_mem (List.take_subset _ _ hx))

/-- The combinatoric digest contains no dash. -/
theorem combsecDigest_dashFree (g : EmojiCombsecGenerator) (t : Int) (e : List Char) :
    dashFree (combsecDigest g t e) :=
  fun c hc => upHex_ne_dash c (combsecDigest_mem g t e c hc)

/-- Splitting a dash-free string is the identity (one field). -/
theorem splitDash_dashFree {s : List Char} (h : dashFree s) : splitDash s = [s] := by
  induction s with
  | nil => rfl
  | cons c rest ih =>
    have hc : c ≠ '-' := h c (List.mem_cons_self _ _)
    have hrest : dashFree rest := fun x hx => h x (List.mem_cons_of_mem _ hx)
    simp [splitDash, hc, ih hrest]

/-- Splitting past a dash-free first field peels it off. -/
theorem splitDash_append {a : List Char} (r : List Char) (h : dashFree a) :
    splitDash (a ++ '-' :: r) = a :: splitDash r := by
  induction a with
  | nil => simp [splitDash]
  | cons c rest ih =>
    have hc : c ≠ '-' := h c (List.mem_cons_self _ _)
    have hrest : dashFree rest := fun x hx => h x (List.mem_cons_of_mem _ hx)
    simp [splitDash, hc, ih hrest]

/-- Membership of every digit character in the decimal alphabet. -/
theorem digitChar_mem (d : Nat) : digitChar d ∈ decDigitChars := by
  unfold digitChar
  have h : d % 10 < 10 := Nat.mod_lt _ (by decide)
  generalize d % 10 = k at h
  interval_cases k <;> decide

/-- Reading back a digit character gives the digit. -/
theorem digitVal_digitChar (d : Nat) : digitVal (digitChar d) = some (d % 10) := by
  unfold digitChar
  have h : d % 10 < 10 := Nat.mod_lt _ (by decide)
  generalize d % 10 = k at h ⊢
  interval_cases k <;> decide

/-- Character-class facts about decimal digits used below. -/
theorem decDigit_facts : ∀ c ∈ decDigitChars,
    c ≠ '_' ∧ c ≠ '+' ∧ c ≠ '-' ∧ pySpace c = false ∧ (digitVal c).isSome = true := by
  decide

/-- All characters of a fuelled decimal rendering are decimal digits. -/
theorem natToDecAux_mem : ∀ fuel n, ∀ c ∈ natToDecAux fuel n, c ∈ decDigitChars := by
  intro fuel
  induction fuel with
  | zero => intro n c hc; simp [natToDecAux] at hc
  | succ f ih =>
    intro n c hc
    by_cases hn : n < 10
    · simp [natToDecAux, hn] at hc
      exact hc ▸ digitChar_mem n
    · simp [natToDecAux, hn] at hc
      rcases hc with hc | hc
      · exact ih _ c hc
      · exact hc ▸ digitChar_mem _

/-- All characters of a decimal rendering are decimal digits. -/
theorem natToDec_mem (n : Nat) : ∀ c ∈ natToDec n, c ∈ decDigitChars :=
  natToDecAux_mem (n + 1) n

/-- Decimal renderings contain no dash. -/
theorem natToDec_dashFree (n : Nat) : dashFree (natToDec n) :=
  fun c hc => (decDigit_facts c (natToDec_mem n c hc)).2.2.1

/-- A fuelled decimal rendering with positive fuel is non-empty. -/
theorem natToDecAux_ne_nil (f n : Nat) : natToDecAux (f + 1) n ≠ [] := by
  by_cases hn : n < 10 <;> simp [natToDecAux, hn]

/-- Appending one digit to a digit group multiplies the accumulated value by
ten and adds the digit. -/
theorem pyDigitsAux_append_digit (d : Nat) :
    ∀ (xs : List Char), (∀ c ∈ xs, c ∈ decDigitChars) → ∀ acc m,
      pyDigitsAux acc xs = some m →
      pyDigitsAux acc (xs ++ [digitChar d]) = some (10 * m + d % 10) := by
  intro xs
  induction xs with
  | nil =>
    intro _ acc m h
    simp [pyDigitsAux] at h
    subst h
    have hne : digitChar d ≠ '_' := (decDigit_facts _ (digitChar_mem d)).1
    simp [pyDigitsAux, hne, digitVal_digitChar]
  | cons x xs ih =>
    intro hmem acc m h
    have hx := decDigit_facts x (hmem x (List.mem_cons_self _ _))
    rcases Option.isSome_iff_exists.mp hx.2.2.2.2 with ⟨dx, hdx⟩
    unfold pyDigitsAux at h
    rw [if_neg hx.1, hdx] at h
    rw [List.cons_append]
    unfold pyDigitsAux
    rw [if_neg hx.1, hdx]
    exact ih (fun c hc => hmem c (List.mem_cons_of_mem _ hc)) _ m h

/-- Appending one digit to a parsed digit string. -/
theorem pyDigits_append_digit {xs : List Char} (hmem : ∀ c ∈ xs, c ∈ decDigitChars)
    {m : Nat} (h : pyDigits xs = some m) (d : Nat) :
    pyDigits (xs ++ [digitChar d]) = some (10 * m + d % 10) := by
  cases xs with
  | nil => simp [pyDigits] at h
  | cons x xs =>
    have hx := decDigit_facts x (hmem x (List.mem_cons_self _ _))
    rcases Option.isSome_iff_exists.mp hx.2.2.2.2 with ⟨dx, hdx⟩
    simp [pyDigits, hdx] at h ⊢
    exact pyDigitsAux_append_digit d xs
      (fun c hc => hmem c (List.mem_cons_of_mem _ hc)) _ m h

/-- Parsing inverts the fuelled decimal rendering. -/
theorem pyDigits_natToDecAux : ∀ fuel n, n < fuel →
    pyDigits (natToDecAux fuel n) = some n := by
  intro fuel
  induction fuel with
  | zero => intro n h; omega
  | succ f ih =>
    intro n h
    by_cases hn : n < 10
    · have : digitVal (digitChar n) = some n := by
        rw [digitVal_digitChar, Nat.mod_eq_of_lt hn]
      simp [natToDecAux, hn, pyDigits, this, pyDigitsAux]
    · have hdiv : n / 10 < f := by
        have h1 : n / 10 < n := Nat.div_lt_self (by omega) (by omega)
        omega
      have hrec := ih (n / 10) hdiv
      have happ := pyDigits_append_digit (natToDecAux_mem f (n / 10)) hrec (n % 10)
      simp [natToDecAux, hn]
      rw [happ]
      congr 1
      omega

/-- Parsing inverts the decimal rendering. -/
theorem pyDigits_natToDec (n : Nat) : pyDigits (natToDec n) = some n :=
  pyDigits_natToDecAux (n + 1) n (Nat.lt_succ_self n)

/-- `dropWhile` is the identity when the predicate holds nowhere. -/
theorem dropWhile_false {p : Char → Bool} {s : List Char}
    (h : ∀ c ∈ s, p c = false) : s.dropWhile p = s := by
  cases s with
  | nil => rfl
  | cons c rest => simp [List.dropWhile, h c (List.mem_cons_self _ _)]

/-- Stripping is the identity on all-digit strings. -/
theorem pyStrip_digits {s : List Char} (h : ∀ c ∈ s, c ∈ decDigitChars) :
    pyStrip s = s := by
  have hns : ∀ c ∈ s, pySpace c = false := fun c hc => (decDigit_facts c (h c hc)).2.2.2.1
  unfold pyStrip
  rw [dropWhile_false hns, dropWhile_false fun c hc => hns c (List.mem_reverse.mp hc),
    List.reverse_reverse]

/-- A decimal rendering is non-empty. -/
theorem natToDec_ne_nil (n : Nat) : natToDec n ≠ [] := natToDecAux_ne_nil n n

/-- `int(...)` inverts the decimal rendering of a natural number. -/
theorem pyIntParse_natToDec (n : Nat) : pyIntParse (natToDec n) = some (n : Int) := by
  unfold pyIntParse
  rw [pyStrip_digits (natToDec_mem n)]
  cases hne : natToDec n with
  | nil => exact absurd hne (natToDec_ne_nil n)
  | cons c rest =>
    have hc := decDigit_facts c (natToDec_mem n c (hne ▸ List.mem_cons_self _ _))
    simp [hc.2.1, hc.2.2.1, ← hne, pyDigits_natToDec]

/-- The decimal rendering of a non-negative integer is that of its absolute
value. -/
theorem intToDec_nonneg {t : Int} (ht : 0 ≤ t) : intToDec t = natToDec t.toNat := by
  simp [intToDec, Int.not_lt.mpr ht]

/-- `int(...)` inverts the decimal rendering of a non-negative integer. -/
theorem pyIntParse_intToDec {t : Int} (ht : 0 ≤ t) :
    pyIntParse (intToDec t) = some t := by
  rw [intToDec_nonneg ht, pyIntParse_natToDec, Int.toNat_of_nonneg ht]

/-- The globe marker constant contains no dash. -/
theorem globeDashFree : dashFree GLOBE_EMOJI := by decide

/-- How `validate_combsec_key` splits a generated key when the identifier is
dash-free and the timestamp non-negative. -/
theorem splitDash_generate (g : EmojiCombsecGenerator) (t : Int) (e : List Char)
    (hf : dashFree g.firm_id) (ht : 0 ≤ t) :
    splitDash (generate_combsec_key g t e) =
      [GLOBE_EMOJI, combsecDigest g t e, intToDec t, g.firm_id] := by
  have hts : dashFree (intToDec t) := by
    rw [intToDec_nonneg ht]; exact natToDec_dashFree _
  unfold generate_combsec_key
  rw [List.append_assoc, List.cons_append, List.append_assoc, List.cons_append,
    splitDash_append _ globeDashFree, splitDash_append _ (combsecDigest_dashFree g t e),
    splitDash_append _ hts, splitDash_dashFree hf]

/-- Splitting at a leading dash yields an empty first field. -/
theorem splitDash_cons_dash (r : List Char) : splitDash ('-' :: r) = [] :: splitDash r := by
  simp [splitDash]

/-- Core round trip: on a dash-free identifier and a non-negative timestamp
whose datetime conversion succeeds, validation of a generated key returns the
success dictionary with the generated components. -/
theorem validate_generate_ok (g : EmojiCombsecGenerator) (t : Int) (e iso : List Char)
    (hf : dashFree g.firm_id) (ht : 0 ≤ t) (hdt : fromtimestampE t = Except.ok iso) :
    validate_combsec_key g (generate_combsec_key g t e) =
      VResult.ok GLOBE_EMOJI (combsecDigest g t e) t iso g.firm_id UNICODE_CODEPOINT := by
  unfold validate_combsec_key validate_inner
  rw [splitDash_generate g t e hf ht]
  simp [pyIntE, pyIntParse_intToDec ht, hdt, combsecDigest_length]

/-- Splitting a key generated at a negative timestamp yields five fields (the
sign of the rendered timestamp is a fifth dash). -/
theorem splitDash_generate_negative (g : EmojiCombsecGenerator) (t : Int) (e : List Char)
    (ht : t < 0) (hf : dashFree g.firm_id) :
    splitDash (generate_combsec_key g t e) =
      [GLOBE_EMOJI, combsecDigest g t e, [], natToDec (-t).toNat, g.firm_id] := by
  have hneg : intToDec t = '-' :: natToDec (-t).toNat := by simp [intToDec, ht]
  unfold generate_combsec_key
  rw [hneg]
  simp only [List.append_assoc, List.cons_append]
  rw [splitDash_append _ globeDashFree, splitDash_append _ (combsecDigest_dashFree g t e),
    splitDash_cons_dash, splitDash_append _ (natToDec_dashFree _), splitDash_dashFree hf]

/-- Core negative case: a negative timestamp puts a fifth dash into the key,
so validation of the generated key reports the format error. -/
theorem validate_generate_neg (g : EmojiCombsecGenerator) (t : Int) (e : List Char)
    (ht : t < 0) (hf : dashFree g.firm_id) :
    validate_combsec_key g (generate_combsec_key g t e) = VResult.err msgInvalidFormat := by
  unfold validate_combsec_key validate_inner
  rw [splitDash_generate_negative g t e ht hf]

/-- A success `Except` value has a value. -/
theorem exceptIsOk_exists {x : Except PyExn (List Char)} (h : exceptIsOk x = true) :
    ∃ v, x = Except.ok v := by
  cases x with
  | ok v => exact ⟨v, rfl⟩
  | error e => simp [exceptIsOk] at h

/-- Claim C1 (amended): for every codec whose identifier is dash-free, every
entropy string and every non-negative timestamp whose datetime conversion
succeeds (in the modelled UTC conversion: `0 ≤ t ≤ 253402300799`), a token
produced by `generate_combsec_key`, when passed to `validate_combsec_key` on
the same codec, yields `valid = true` with the `timestamp` field equal to the
supplied timestamp and the `firm_id` field equal to the codec's identifier. -/
theorem combsec_roundtrip_valid (g : EmojiCombsecGenerator) (t : Int) (e iso : List Char)
    (hf : dashFree g.firm_id) (ht : 0 ≤ t) (hdt : fromtimestampE t = Except.ok iso) :
    (validate_combsec_key g (generate_combsec_key g t e)).valid = true ∧
    (validate_combsec_key g (generate_combsec_key g t e)).timestamp = t ∧
    (validate_combsec_key g (generate_combsec_key g t e)).firm_id = g.firm_id := by
  rw [validate_generate_ok g t e iso hf ht hdt]
  exact ⟨rfl, rfl, rfl⟩

/-- Witness for C1 at firm `ACMEFIRM`, timestamp 1700000000 and a concrete
entropy string. -/
theorem combsec_roundtrip_valid_witness :
    dashFree gACME.firm_id ∧ (0 : Int) ≤ 1700000000 ∧
    fromtimestampE 1700000000 = Except.ok iso1700 ∧
    ((validate_combsec_key gACME (generate_combsec_key gACME 1700000000 entropyX)).valid = true ∧
     (validate_combsec_key gACME (generate_combsec_key gACME 1700000000 entropyX)).timestamp =
       1700000000 ∧
     (validate_combsec_key gACME (generate_combsec_key gACME 1700000000 entropyX)).firm_id =
       gACME.firm_id) :=
  ⟨by decide, by decide, rfl,
    combsec_roundtrip_valid gACME 1700000000 entropyX iso1700 (by decide) (by decide) rfl⟩

/-- Counterexample to C1 as frozen: at the dash-free identifier `ACMEFIRM`
and timestamp `-1`, the generate-then-validate round trip reports
`valid = false` (the claim asserts `valid = true` for every timestamp). -/
theorem combsec_roundtrip_neg_counterexample :
    dashFree gACME.firm_id ∧
    (validate_combsec_key gACME (generate_combsec_key gACME (-1) entropyX)).valid = false := by
  refine ⟨by decide, ?_⟩
  rw [validate_generate_neg gACME (-1) entropyX (by decide) (by decide)]
  rfl

/-- Claim C2: for every timestamp and entropy string, `generate_combsec_key`
returns exactly `marker-digest-timestamp-identifier` where the digest is the
first 16 hex characters, uppercased, of the SHA-256 hex digest of the UTF-8
encoding of `base_secret`, the decimal timestamp, the identifier, the decimal
value 127760 of the marker code point 0x1F310, and the entropy, concatenated
in that order; the digest field always has exactly 16 uppercase hex
characters. -/
theorem generate_key_format (g : EmojiCombsecGenerator) (t : Int) (e : List Char) :
    generate_combsec_key g t e =
      GLOBE_EMOJI ++ '-' ::
        pyUpper ((sha256Hex (utf8 (base_seed g ++ intToDec t ++ g.firm_id ++
          natToDec HEX_VALUE ++ e))).take 16) ++ '-' :: intToDec t ++ '-' :: g.firm_id ∧
    natToDec HEX_VALUE = "127760".data ∧
    (combsecDigest g t e).length = 16 ∧
    (∀ c ∈ combsecDigest g t e, c ∈ upHexChars) :=
  ⟨rfl, by decide, combsecDigest_length g t e, combsecDigest_mem g t e⟩

/-- Claim C3 (amended): `validate_combsec_key` applied to the exact string
`not-a-valid-key` returns `valid = false`, but with the marker-mismatch error
rather than the format error: the string splits into exactly four fields, so
the field-count check passes and the marker check is the one that fails. -/
theorem validate_not_a_valid_key_marker_error (g : EmojiCombsecGenerator) :
    validate_combsec_key g ("not-a-valid-key".data) = VResult.err msgInvalidEmoji ∧
    (validate_combsec_key g ("not-a-valid-key".data)).valid = false :=
  ⟨rfl, rfl⟩

/-- Counterexample to C3 as frozen: on `not-a-valid-key` the split has four
fields, and the reported error is the marker error, not the format error. -/
theorem validate_not_a_valid_key_counterexample :
    (splitDash ("not-a-valid-key".data)).length = 4 ∧
    (validate_combsec_key gFIRM ("not-a-valid-key".data)).error = some msgInvalidEmoji ∧
    msgInvalidEmoji ≠ msgInvalidFormat :=
  ⟨rfl, rfl, by decide⟩

/-- The `i`-th key of a batch (for `i < count`) is the key generated at
timestamp `base_time + i` with the `i`-th batch entropy. -/
theorem generate_key_batch_getD (g : EmojiCombsecGenerator) (b : Int)
    (tok : Nat → List Char) (n i : Nat) (h : i < n) :
    (generate_key_batch g b tok n).getD i [] =
      generate_combsec_key g (b + (i : Int)) (batchEntropy tok i) := by
  unfold generate_key_batch
  rw [List.getD_eq_getElem?_getD, List.getElem?_map, List.getElem?_range h]
  rfl

/-- Claim C4: for a dash-free identifier, a non-negative batch base time and
per-item random strings, `generate_key_batch` returns exactly `count` tokens;
the `i`-th token validates with `valid = true` and timestamp field
`base_time + i`; and the tokens are pairwise distinct.  (The batch base time
is the `int(time.time())` clock reading, so it is non-negative and its
per-item datetime conversions succeed on any realistic clock.) -/
theorem generate_key_batch_spec (g : EmojiCombsecGenerator) (b : Int)
    (tok : Nat → List Char) (n : Nat) (hf : dashFree g.firm_id) (hb : 0 ≤ b)
    (hok : ∀ i : Nat, i < n → exceptIsOk (fromtimestampE (b + (i : Int))) = true) :
    (generate_key_batch g b tok n).length = n ∧
    (∀ i : Nat, i < n →
      (validate_combsec_key g ((generate_key_batch g b tok n).getD i [])).valid = true ∧
      (validate_combsec_key g ((generate_key_batch g b tok n).getD i [])).timestamp =
        b + (i : Int)) ∧
    (∀ i j : Nat, i < n → j < n →
      (generate_key_batch g b tok n).getD i [] = (generate_key_batch g b tok n).getD j [] →
      i = j) := by
  refine ⟨?_, ?_, ?_⟩
  · unfold generate_key_batch
    rw [List.length_map, List.length_range]
  · intro i hi
    obtain ⟨iso, hiso⟩ := exceptIsOk_exists (hok i hi)
    have hti : (0 : Int) ≤ b + (i : Int) := by omega
    rw [generate_key_batch_getD g b tok n i hi,
      validate_generate_ok g _ _ iso hf hti hiso]
    exact ⟨rfl, rfl⟩
  · intro i j hi hj heq
    obtain ⟨isoI, hisoI⟩ := exceptIsOk_exists (hok i hi)
    obtain ⟨isoJ, hisoJ⟩ := exceptIsOk_exists (hok j hj)
    have hti : (0 : Int) ≤ b + (i : Int) := by omega
    have htj : (0 : Int) ≤ b + (j : Int) := by omega
    rw [generate_key_batch_getD g b tok n i hi, generate_key_batch_getD g b tok n j hj] at heq
    have hv := congrArg (validate_combsec_key g) heq
    rw [validate_generate_ok g _ _ isoI hf hti hisoI,
      validate_generate_ok g _ _ isoJ hf htj hisoJ] at hv
    have hts := congrArg VResult.timestamp hv
    simp [VResult.timestamp] at hts
    omega

/-- Witness for C4: firm `ACMEFIRM`, base time 1700000000, two keys. -/
theorem generate_key_batch_spec_witness :
    dashFree gACME.firm_id ∧
    (∀ i : Nat, i < 2 →
      exceptIsOk (fromtimestampE ((1700000000 : Int) + (i : Int))) = true) ∧
    ((generate_key_batch gACME 1700000000 (fun _ => entropyX) 2).length = 2 ∧
     (∀ i : Nat, i < 2 →
       (validate_combsec_key gACME
         ((generate_key_batch gACME 1700000000 (fun _ => entropyX) 2).getD i [])).valid = true ∧
       (validate_combsec_key gACME
         ((generate_key_batch gACME 1700000000 (fun _ => entropyX) 2).getD i [])).timestamp =
         (1700000000 : Int) + (i : Int)) ∧
     (∀ i j : Nat, i < 2 → j < 2 →
       (generate_key_batch gACME 1700000000 (fun _ => entropyX) 2).getD i [] =
         (generate_key_batch gACME 1700000000 (fun _ => entropyX) 2).getD j [] →
       i = j)) :=
  ⟨by decide, by decide,
    generate_key_batch_spec gACME 1700000000 (fun _ => entropyX) 2
      (by decide) (by decide) (by decide)⟩

/-- Claim C5: for every input string, `validate_combsec_key` always returns a
result dictionary (either `valid = true` or `valid = false` with an error
entry), and any exception escaping the validation body is caught and reported
as the generic parsing error carrying the exception text instead of
propagating. -/
theorem validate_total_and_catches (g : EmojiCombsecGenerator) (key : List Char) :
    ((validate_combsec_key g key).valid = true ∨
      (validate_combsec_key g key).valid = false ∧
        ∃ m, (validate_combsec_key g key).error = some m) ∧
    (∀ e, validate_inner g key = Except.error e →
      validate_combsec_key g key = VResult.err (msgParsingError ++ e.msg)) := by
  constructor
  · cases h : validate_combsec_key g key with
    | ok a b c d f cp => exact Or.inl rfl
    | err m => exact Or.inr ⟨rfl, m, rfl⟩
  · intro e he
    unfold validate_combsec_key
    rw [he]

/-- Witness for C5 at a token whose timestamp exceeds `time_t`: the inner body
raises `OverflowError`, and the result is the parsing-error dictionary with
that exception's text. -/
theorem validate_total_and_catches_witness :
    validate_inner gFIRM keyHugeTs = Except.error exnOverflow ∧
    validate_combsec_key gFIRM keyHugeTs = VResult.err (msgParsingError ++ exnOverflow.msg) :=
  ⟨rfl, (validate_total_and_catches gFIRM keyHugeTs).2 exnOverflow rfl⟩

/-- Claim C6 is a code bug: the source's fixed marker constant `GLOBE_EMOJI`
is not the glyph U+1F310 its own `UNICODE_CODEPOINT` and `UTF8_BYTES`
constants describe, but a four-character mojibake of it; consequently a
well-formed token whose first field is that mojibake string — not U+1F310 —
is accepted with `valid = true` instead of being rejected with the
marker-mismatch error. -/
theorem validate_mojibake_marker_bug :
    GLOBE_EMOJI ≠ globeU1F310 ∧ GLOBE_EMOJI.length = 4 ∧
    (validate_combsec_key gFIRM keyMojibake).valid = true ∧
    (validate_combsec_key gFIRM keyMojibake).error = none :=
  ⟨by decide, rfl, rfl, rfl⟩

/-- Claim C7: a key that splits into exactly four fields whose first field is
the marker constant but whose digest field is not 16 characters long is
rejected with the digest-length error. -/
theorem validate_digest_length_error (g : EmojiCombsecGenerator) (key : List Char)
    (d ts fi : List Char) (hs : splitDash key = [GLOBE_EMOJI, d, ts, fi])
    (hd : d.length ≠ 16) :
    validate_combsec_key g key = VResult.err msgInvalidHexLen := by
  unfold validate_combsec_key validate_inner
  rw [hs]
  simp [hd]

/-- Witness for C7 at the spec's scenario key with digest field `SHORT`. -/
theorem validate_digest_length_error_witness :
    splitDash keyShort = [GLOBE_EMOJI, "SHORT".data, "1700000000".data, "FIRM".data] ∧
    ("SHORT".data).length ≠ 16 ∧
    validate_combsec_key gFIRM keyShort = VResult.err msgInvalidHexLen :=
  ⟨rfl, by decide,
    validate_digest_length_error gFIRM keyShort ("SHORT".data) ("1700000000".data)
      ("FIRM".data) rfl (by decide)⟩

/-- Claim C8: a key that splits into exactly four fields with the correct
marker and a 16-character digest field but a timestamp field `int(...)`
cannot parse is rejected with the invalid-timestamp error. -/
theorem validate_timestamp_parse_error (g : EmojiCombsecGenerator) (key : List Char)
    (d ts fi : List Char) (hs : splitDash key = [GLOBE_EMOJI, d, ts, fi])
    (hd : d.length = 16) (hp : pyIntParse ts = none) :
    validate_combsec_key g key = VResult.err msgInvalidTimestamp := by
  unfold validate_combsec_key validate_inner
  rw [hs]
  simp [hd, pyIntE, hp]

/-- Witness for C8 at a key with timestamp field `notanumber`. -/
theorem validate_timestamp_parse_error_witness :
    splitDash keyNoNum =
      [GLOBE_EMOJI, "AAAAAAAAAAAAAAAA".data, "notanumber".data, "FIRM".data] ∧
    pyIntParse ("notanumber".data) = none ∧
    validate_combsec_key gFIRM keyNoNum = VResult.err msgInvalidTimestamp :=
  ⟨rfl, rfl,
    validate_timestamp_parse_error gFIRM keyNoNum ("AAAAAAAAAAAAAAAA".data)
      ("notanumber".data) ("FIRM".data) rfl rfl rfl⟩

/-- Claim C9 (implicit): validation checks only the length of the digest
field, never its characters: any four-field key with the correct marker, a
16-character second field and a convertible integer timestamp is accepted
with `valid = true`, whatever the second field contains. -/
theorem validate_ignores_digest_content (g : EmojiCombsecGenerator) (key : List Char)
    (d ts fi : List Char) (t : Int) (iso : List Char)
    (hs : splitDash key = [GLOBE_EMOJI, d, ts, fi]) (hd : d.length = 16)
    (hp : pyIntParse ts = some t) (hdt : fromtimestampE t = Except.ok iso) :
    validate_combsec_key g key =
      VResult.ok GLOBE_EMOJI d t iso fi UNICODE_CODEPOINT := by
  unfold validate_combsec_key validate_inner
  rw [hs]
  simp [hd, pyIntE, hp, hdt]

/-- Witness for C9 at a key whose 16-character digest field is all `G` — not
a hexadecimal digit — which is accepted with `valid = true`. -/
theorem validate_ignores_digest_content_witness :
    splitDash keyNonHex = [GLOBE_EMOJI, digestG, "1700000000".data, "FIRM".data] ∧
    ('G' ∈ digestG ∧ 'G' ∉ lowHexChars ∧ 'G' ∉ upHexChars) ∧
    validate_combsec_key gFIRM keyNonHex =
      VResult.ok GLOBE_EMOJI digestG 1700000000 iso1700 ("FIRM".data) UNICODE_CODEPOINT :=
  ⟨rfl, by decide,
    validate_ignores_digest_content gFIRM keyNonHex digestG ("1700000000".data)
      ("FIRM".data) 1700000000 iso1700 rfl rfl rfl rfl⟩

/-- Claim C10 (implicit): for every negative timestamp and dash-free
identifier, the generated token contains the timestamp's minus sign as a
fifth dash, so validation splits it into five fields and reports the format
error: the round trip fails for all negative timestamps. -/
theorem negative_timestamp_key_invalid (g : EmojiCombsecGenerator) (t : Int)
    (e : List Char) (ht : t < 0) (hf : dashFree g.firm_id) :
    (splitDash (generate_combsec_key g t e)).length = 5 ∧
    validate_combsec_key g (generate_combsec_key g t e) = VResult.err msgInvalidFormat := by
  constructor
  · rw [splitDash_generate_negative g t e ht hf]
    rfl
  · exact validate_generate_neg g t e ht hf

/-- Witness for C10 at firm `FIRM` and timestamp `-1`. -/
theorem negative_timestamp_key_invalid_witness :
    ((-1 : Int) < 0) ∧ dashFree gFIRM.firm_id ∧
    ((splitDash (generate_combsec_key gFIRM (-1) entropyX)).length = 5 ∧
     validate_combsec_key gFIRM (generate_combsec_key gFIRM (-1) entropyX) =
       VResult.err msgInvalidFormat) :=
  ⟨by decide, by decide,
    negative_timestamp_key_invalid gFIRM (-1) entropyX (by decide) (by decide)⟩
